import Mathlib

/-!
Verification of the codex bridge (services/acp-agents/codex/app/codex_bridge.py).

The development shallowly embeds the bridge: JSON values become an inductive
type; the mutable transport (class CodexProcess) and orchestrator
(class CodexManager) become explicit state records with pure state-passing
functions; Python exceptions become an Except monad; awaited JSON-RPC calls
issued by the orchestrator are abstracted by an oracle giving each request
method a result or an error.  Every definition follows the Python source
line by line; comments quote the source where a Python idiom (truthiness,
dict.get defaults, str coercion) needs care.
-/

namespace CodexBridge

/-- JSON values as produced by json.loads; Python None is Json.null.
Numbers are modelled as integers (every number the bridge manipulates is an
integer error code or protocol version). -/
inductive Json where
  | null
  | bool (b : Bool)
  | num (n : Int)
  | str (s : String)
  | arr (elems : List Json)
  | obj (fields : List (String × Json))

/-- Python truthiness of a JSON value: None, False, 0, empty string, empty
list and empty dict are falsy, everything else truthy. -/
def Json.truthy : Json → Bool
  | .null => false
  | .bool b => b
  | .num n => n != 0
  | .str s => s != ""
  | .arr elems => !elems.isEmpty
  | .obj fields => !fields.isEmpty

/-- Is this JSON value a Python dict? (isinstance(x, dict)) -/
def Json.isDict : Json → Bool
  | .obj _ => true
  | _ => false

/-- Lookup of a key in a JSON object; none when the key is absent or the
value is not an object. -/
def jsonGet : Json → String → Option Json
  | .obj fields, key => fields.lookup key
  | _, _ => none

/-- Python dict.get(key, default): the stored value when the key is present
(even if it is null), the default otherwise. -/
def pyGetD (j : Json) (key : String) (default : Json) : Json :=
  match jsonGet j key with
  | some v => v
  | none => default

/-- Python dict.get(key): default None. -/
def pyGet (j : Json) (key : String) : Json :=
  pyGetD j key .null

/-- Python `a or b`: a when truthy, else b. -/
def pyOr (a b : Json) : Json :=
  if a.truthy then a else b

/-- Does the JSON object have this key? (key in message, for dicts) -/
def jsonHasKey (j : Json) (key : String) : Bool :=
  match j with
  | .obj fields => (fields.map Prod.fst).contains key
  | _ => false

/-- Python equality between a JSON value and a string literal: true exactly
for the equal string. -/
def Json.eqStr (j : Json) (s : String) : Bool :=
  match j with
  | .str t => t == s
  | _ => false

mutual

/-- Python repr of a JSON value (used by str() for non-strings). -/
def pyRepr : Json → String
  | Json.null => "None"
  | Json.bool true => "True"
  | Json.bool false => "False"
  | Json.num n => toString n
  | Json.str s => "\x27" ++ s ++ "\x27"
  | Json.arr elems => "[" ++ pyReprSeq elems ++ "]"
  | Json.obj fields => "\x7b" ++ pyReprFields fields ++ "\x7d"

/-- Comma-separated reprs of list elements. -/
def pyReprSeq : List Json → String
  | [] => ""
  | [x] => pyRepr x
  | x :: y :: rest => pyRepr x ++ ", " ++ pyReprSeq (y :: rest)

/-- Comma-separated reprs of dict entries. -/
def pyReprFields : List (String × Json) → String
  | [] => ""
  | [kv] => "\x27" ++ kv.1 ++ "\x27: " ++ pyRepr kv.2
  | kv :: kv2 :: rest =>
      "\x27" ++ kv.1 ++ "\x27: " ++ pyRepr kv.2 ++ ", " ++ pyReprFields (kv2 :: rest)

end

/-- Python str() of a JSON value: identity on strings, repr otherwise
(request_id = str(message["id"])). -/
def pyStr : Json → String
  | .str s => s
  | j => pyRepr j

/-- Python `x or ""` for an Optional[str] (client_session = client_session_id or ""). -/
def optStrOrEmpty : Option String → String
  | none => ""
  | some s => s

/-- Python `a or b` on strings: a when non-empty, else b. -/
def pyOrStr (a b : String) : String :=
  if a == "" then b else a

/-- Python truthiness of an Optional[str]: None and the empty string are
falsy (if token:). -/
def pyTruthyOpt : Option String → Bool
  | none => false
  | some s => s != ""

section AList

variable {α : Type}

/-- Lookup in an insertion-ordered association list (Python dict read). -/
def alistLookup : List (String × α) → String → Option α
  | [], _ => none
  | kv :: rest, key => if kv.1 = key then some kv.2 else alistLookup rest key

/-- Python dict assignment d[key] = v: overwrite the existing entry in
place, or append a new entry at the end. -/
def alistSet : List (String × α) → String → α → List (String × α)
  | [], key, v => [(key, v)]
  | kv :: rest, key, v =>
      if kv.1 = key then (key, v) :: rest
      else kv :: alistSet rest key v

/-- Python dict.pop(key, None): drop the entry with this key (dict keys
are unique, so dropping every matching entry coincides). -/
def alistErase : List (String × α) → String → List (String × α)
  | [], _ => []
  | kv :: rest, key =>
      if kv.1 = key then alistErase rest key
      else kv :: alistErase rest key

end AList

/-! Transport layer: class CodexProcess. -/

/-- Errors raised inside the bridge.
protocolError embeds class CodexError (a JSON-RPC level failure, fields
code/message/data kept as JSON values exactly as the source stores them);
processClosed embeds class CodexProcessClosed; valueError embeds the
ValueError raised by _build_prompt_payload; pyError marks a state in which
the Python source would raise an uncaught runtime error (TypeError or
AttributeError) on malformed data. -/
inductive CodexErr where
  | protocolError (code : Json) (message : Json) (data : Json)
  | processClosed (msg : String)
  | valueError (msg : String)
  | pyError (msg : String)

/-- Caller-visible state of one asyncio.Future created by request():
still pending, resolved with a result value, or resolved with an
exception. -/
inductive FutureState where
  | pending
  | resolvedOk (v : Json)
  | resolvedErr (e : CodexErr)

/-- future.done(). -/
def FutureState.isDone : FutureState → Bool
  | .pending => false
  | _ => true

/-- The child process handle.  generation distinguishes distinct spawned
processes; returncode is None while the process runs; openaiApiKey records
the OPENAI_API_KEY value injected into the child environment at spawn
(absent when the token was falsy, mirroring env.pop). -/
structure ChildProc where
  generation : Nat
  returncode : Option Int
  openaiApiKey : Option String

/-- Mutable state of a CodexProcess instance.
pending is the _pending dict (request id to future); resolved records
futures that the stdout reader popped out of _pending together with their
resolution, which is what the awaiting caller observes; writes is the
sequence of JSON-RPC messages successfully written to the child stdin;
nextGen numbers spawned processes. -/
structure CPState where
  proc : Option ChildProc
  currentToken : Option String
  idCounter : Nat
  pending : List (String × FutureState)
  resolved : List (String × FutureState)
  writes : List Json
  nextGen : Nat

/-- Tail of _shutdown_locked and of _read_stdout after end-of-stream:
for future in self._pending.values(): if not future.done():
future.set_exception(CodexProcessClosed(msg)); then self._pending.clear().
Every popped future keeps its prior resolution if it already had one. -/
def fail_all_pending (st : CPState) (msg : String) : CPState :=
  { st with
    pending := [],
    resolved := st.resolved ++ st.pending.map (fun e =>
      (e.1, if e.2.isDone then e.2 else .resolvedErr (.processClosed msg))) }

/-- CodexProcess._shutdown_locked: cancel the reader tasks, terminate or
kill the child, forget the process handle and token, then fail every
pending request with CodexProcessClosed("codex-acp process stopped") and
clear the table. -/
def shutdown_locked (st : CPState) : CPState :=
  fail_all_pending { st with proc := none, currentToken := none }
    "codex-acp process stopped"

/-- CodexProcess.stop: take the lock and run _shutdown_locked. -/
def CPState.stop (st : CPState) : CPState :=
  shutdown_locked st

/-- Spawn of the child in ensure_started: a fresh process handle whose
environment carries OPENAI_API_KEY exactly when the token is truthy
(env.pop("CODEX_API_KEY"); if token: env["OPENAI_API_KEY"] = token else
env.pop("OPENAI_API_KEY")), and record the token as current. -/
def spawn (st : CPState) (token : Option String) : CPState :=
  { st with
    proc := some
      { generation := st.nextGen
        returncode := none
        openaiApiKey := if pyTruthyOpt token then token else none }
    nextGen := st.nextGen + 1
    currentToken := token }

/-- CodexProcess.ensure_started(token): under the lock, a no-op returning
False when the child is alive (returncode is None) and the token equals
the current one; otherwise _shutdown_locked followed by a fresh spawn,
returning True. -/
def ensure_started (st : CPState) (token : Option String) : CPState × Bool :=
  if (match st.proc with
      | some p => p.returncode.isNone
      | none => false)
     && token == st.currentToken then
    (st, false)
  else
    (spawn (shutdown_locked st) token, true)

/-- Outcome of one modelled write of the request line to the child stdin. -/
inductive WriteOutcome where
  | ok
  | brokenPipe (msg : String)

/-- What CodexProcess.request does before awaiting the future: either it
raises CodexProcessClosed (no child, or the write broke the pipe), or it
leaves a registered pending request with the given id being awaited. -/
inductive RequestOutcome where
  | raisedClosed (msg : String)
  | awaiting (id : String)

/-- CodexProcess.request(method, params), up to the final await.
With no child process (or no stdin pipe, impossible here since every spawn
pipes stdin) it raises CodexProcessClosed immediately, touching nothing.
Otherwise it assigns the next sequential id, registers a fresh pending
future under that id (dict assignment), serializes the JSON-RPC message,
and writes it: on success the caller awaits the future; on BrokenPipeError
the future is resolved with CodexProcessClosed (it stays in the table) and
the same error is raised to the caller. -/
def request (st : CPState) (write : WriteOutcome) (method : String)
    (params : Json) : CPState × RequestOutcome :=
  match st.proc with
  | none => (st, .raisedClosed "codex-acp process is not running")
  | some _ =>
    let counter := st.idCounter + 1
    let request_id := toString counter
    let message : Json := .obj
      [("jsonrpc", .str "2.0"), ("id", .str request_id),
       ("method", .str method), ("params", pyOr params (.obj []))]
    let st1 := { st with
      idCounter := counter
      pending := alistSet st.pending request_id .pending }
    match write with
    | .ok => ({ st1 with writes := st1.writes ++ [message] }, .awaiting request_id)
    | .brokenPipe msg =>
      ({ st1 with
         pending := alistSet st1.pending request_id
           (.resolvedErr (.processClosed msg)) },
       .raisedClosed msg)

/-- What one iteration of the stdout reader loop did with a parsed value. -/
inductive ReadAction where
  | skipped
  | resolvedResponse (id : String)
  | unknownResponse (id : String)
  | notify (method : Json) (params : Json)
  | unexpected
  | crashed

/-- Did this iteration raise and kill the reader task? -/
def ReadAction.isCrashed : ReadAction → Bool
  | .crashed => true
  | _ => false

/-- The body of CodexProcess._read_stdout for one parsed JSON value.
For a dict with an "id" key: pop the pending future for str(message["id"]);
if none, log and continue; if the message carries a non-null "error", the
source calls error_obj.get, which resolves the future with a CodexError
built from the code/message/data fields when the error is a dict and
raises AttributeError (killing the reader task with the future already
popped and unresolved) otherwise; with no error the future is resolved
with message.get("result").  A dict with no "id" but a "method" key
dispatches the notification handler with message.get("params") or empty.
A dict with neither is logged.  For a parsed non-dict value the source
evaluates ("id" in message): a TypeError for numbers, booleans and null;
for lists and strings, membership or substring tests that, when they hit,
lead to a TypeError on message["id"] or message["method"]. -/
def handle_message (st : CPState) (message : Json) : CPState × ReadAction :=
  match message with
  | .obj fields =>
    let message := Json.obj fields
    if jsonHasKey message "id" then
      let request_id := pyStr (pyGet message "id")
      match alistLookup st.pending request_id with
      | none => (st, .unknownResponse request_id)
      | some fut =>
        let stPopped := { st with pending := alistErase st.pending request_id }
        -- if "error" in message and message["error"] is not None:
        match jsonGet message "error" with
        | some Json.null | none =>
          -- no error (or error is None): resolve with message.get("result")
          let fut2 := if fut.isDone then fut else .resolvedOk (pyGet message "result")
          ({ stPopped with resolved := stPopped.resolved ++ [(request_id, fut2)] },
           .resolvedResponse request_id)
        | some (Json.obj efields) =>
          let e := Json.obj efields
          let fut2 := if fut.isDone then fut else
            .resolvedErr (.protocolError (pyGetD e "code" (.num (-32001)))
              (pyGetD e "message" (.str "Unknown error")) (pyGet e "data"))
          ({ stPopped with resolved := stPopped.resolved ++ [(request_id, fut2)] },
           .resolvedResponse request_id)
        | some _ =>
          -- error non-null but not a dict: error_obj.get raises
          -- AttributeError, the reader task dies with the popped future
          -- never resolved.
          (stPopped, .crashed)
    else if jsonHasKey message "method" then
      (st, .notify (pyGet message "method") (pyOr (pyGet message "params") (.obj [])))
    else
      (st, .unexpected)
  | .arr elems =>
    if elems.any (fun x => x.eqStr "id") then (st, .crashed)
    else if elems.any (fun x => x.eqStr "method") then (st, .crashed)
    else (st, .unexpected)
  | .str s =>
    if (s.splitOn "id").length > 1 then (st, .crashed)
    else if (s.splitOn "method").length > 1 then (st, .crashed)
    else (st, .unexpected)
  | _ => (st, .crashed)

/-- One iteration of the stdout reader loop on a raw line: strip it, skip
empty lines, parse it as JSON (the parse argument abstracts json.loads, a
library call; none models json.JSONDecodeError), log and skip unparseable
lines, and hand parsed values to handle_message. -/
def process_line (parse : String → Option Json) (st : CPState)
    (line : String) : CPState × ReadAction :=
  let raw := line.trim
  if raw == "" then (st, .skipped)
  else
    match parse raw with
    | none => (st, .skipped)
    | some message => handle_message st message

/-- The reader loop on a list of parsed JSON values: handle each in order,
stopping if an iteration raises (killing the task). -/
def process_messages (st : CPState) : List Json → CPState
  | [] => st
  | message :: rest =>
    let step := handle_message st message
    if step.2.isCrashed then step.1
    else process_messages step.1 rest

/-- End-of-stream tail of _read_stdout: fail every remaining pending
future with CodexProcessClosed("codex-acp stdout closed") and clear the
table. -/
def read_stdout_eos (st : CPState) : CPState :=
  fail_all_pending st "codex-acp stdout closed"

/-! Accumulator: class _PromptAccumulator. -/

/-- State of a _PromptAccumulator: the collected assistant text fragments
and the ordered event log. -/
structure PromptAccumulator where
  assistant_text_parts : List String
  events : List Json

/-- _PromptAccumulator.ingest(notification).
Returns unchanged (no event logged) when the notification is not a dict,
or when its "update" field is truthy but not a dict.  Otherwise, when the
update kind is "agent_message_chunk" and its content is a dict of type
"text" with a non-empty string text, that text is appended to the fragment
list; and in every such case the raw notification is appended to the event
log. -/
def PromptAccumulator.ingest (acc : PromptAccumulator)
    (notification : Json) : PromptAccumulator :=
  if !notification.isDict then acc
  else
    let update := pyOr (pyGet notification "update") (.obj [])
    if !update.isDict then acc
    else
      let parts :=
        if (pyGet update "sessionUpdate").eqStr "agent_message_chunk" then
          let content := pyOr (pyGet update "content") (.obj [])
          if content.isDict && (pyGet content "type").eqStr "text" then
            match pyGet content "text" with
            | .str t => if t != "" then acc.assistant_text_parts ++ [t]
                        else acc.assistant_text_parts
            | _ => acc.assistant_text_parts
          else acc.assistant_text_parts
        else acc.assistant_text_parts
      { assistant_text_parts := parts
        events := acc.events ++ [notification] }

/-- _PromptAccumulator.build_output: the empty list with no collected
fragments, otherwise a single assistant message whose one text/plain part
is the concatenation of the fragments in order. -/
def PromptAccumulator.build_output (acc : PromptAccumulator) : List Json :=
  if acc.assistant_text_parts.isEmpty then []
  else
    [Json.obj
      [("role", .str "assistant"),
       ("parts", .arr
         [Json.obj
           [("content_type", .str "text/plain"),
            ("content_encoding", .str "plain"),
            ("content", .str (String.join acc.assistant_text_parts))]])]]

/-- _PromptAccumulator.assistant_token_count: sum of fragment lengths. -/
def PromptAccumulator.assistant_token_count (acc : PromptAccumulator) : Nat :=
  (acc.assistant_text_parts.map String.length).sum

/-! Prompt payload builder: _build_prompt_payload. -/

/-- Python dict.get on a value that must be a dict; a non-dict receiver
raises AttributeError. -/
def pyDictGet (j : Json) (key : String) : Except CodexErr Json :=
  match j with
  | .obj _ => .ok (pyGet j key)
  | _ => .error (.pyError "AttributeError: get on a non-dict value")

/-- Python iteration (for x in j): list elements for a list, the
characters for a string, the keys for a dict, TypeError otherwise. -/
def pyIterElems : Json → Except CodexErr (List Json)
  | .arr elems => .ok elems
  | .str s => .ok (s.toList.map (fun c => .str (String.singleton c)))
  | .obj fields => .ok (fields.map (fun kv => .str kv.1))
  | _ => .error (.pyError "TypeError: value is not iterable")

/-- The inner per-part step of _build_prompt_payload: skip non-dict parts;
content_type = part.get("content_type") or part.get("type"); skip unless
it is "text/plain" or "text"; text = part.get("content") or
part.get("text") or ""; append a text block when text is truthy. -/
def addPromptBlock (acc : List Json) (part : Json) : List Json :=
  if !part.isDict then acc
  else
    let content_type := pyOr (pyGet part "content_type") (pyGet part "type")
    if !(content_type.eqStr "text/plain" || content_type.eqStr "text") then acc
    else
      let text := pyOr (pyOr (pyGet part "content") (pyGet part "text")) (.str "")
      if text.truthy then acc ++ [Json.obj [("type", .str "text"), ("text", text)]]
      else acc

/-- _build_prompt_payload(messages): collect text blocks from every part
of every message (parts = message.get("parts") or []), raise ValueError
when none result. -/
def build_prompt_payload (messages : List Json) :
    Except CodexErr (List Json) := do
  let content_blocks ← messages.foldlM (fun acc message => do
    let partsJ ← pyDictGet message "parts"
    let elems ← pyIterElems (pyOr partsJ (.arr []))
    pure (elems.foldl addPromptBlock acc)) []
  if content_blocks.isEmpty then
    .error (.valueError "Prompt payload did not contain any plain text content")
  else
    pure content_blocks

/-! Orchestrator: class CodexManager. -/

/-- The result record returned by run_prompt (dataclass RunResult).
stop_reason is kept as a JSON value: the source stores whatever
(prompt_response or empty).get("stopReason", "unknown") yields. -/
structure RunResult where
  session_id : String
  codex_session_id : String
  stop_reason : Json
  output_messages : List Json
  events : List Json

/-- Mutable state of a CodexManager: the owned CodexProcess state, the
workspace path, the handshake flag (_initialized), the client-to-agent
session map (_client_to_codex), the subscriber registry
(_session_watchers, each asyncio.Queue identified by the Nat that
queueCounter held when it was created), and the advertised auth method
ids (_auth_methods, kept as the JSON values the source collects). -/
structure ManagerState where
  process : CPState
  workspace : String
  initialized : Bool
  clientToCodex : List (String × String)
  sessionWatchers : List (String × List Nat)
  authMethods : List Json
  queueCounter : Nat

/-- An oracle abstracting awaited self._process.request(method, params)
calls issued by the orchestrator: for each method and params it gives the
awaited result, or the error the await raised. -/
def Oracle : Type := String → Json → Except CodexErr Json

/-- CodexManager._detach_watcher(session_id, queue): a missing or empty
watcher list is left alone; otherwise the queue is removed (first
occurrence, ValueError suppressed) and an emptied list drops its registry
entry. -/
def detach_watcher (watchers : List (String × List Nat)) (session_id : String)
    (queue : Nat) : List (String × List Nat) :=
  match alistLookup watchers session_id with
  | none => watchers
  | some ws =>
    if ws.isEmpty then watchers
    else
      let ws2 := ws.erase queue
      if ws2.isEmpty then alistErase watchers session_id
      else alistSet watchers session_id ws2

/-- The params of the initialize request sent by _ensure_initialized. -/
def initializeParams : Json :=
  .obj
    [("protocolVersion", .num 1),
     ("clientCapabilities", .obj
       [("fs", .obj
         [("readTextFile", .bool false), ("writeTextFile", .bool false)]),
        ("terminal", .bool false)])]

/-- CodexManager._ensure_initialized(token): a no-op when the handshake
flag is set.  Otherwise send initialize, collect the id field of every
dict entry of (init_result or empty).get("authMethods", []) into
_auth_methods (iterating a non-list raises in the source; no claim
reaches that state and it is modelled as no methods), and when the token
is truthy fail with CodexError(-32000, ...) unless "openai-api-key" is
among them, else send authenticate; finally set the flag. -/
def ensure_initialized (st : ManagerState) (token : Option String)
    (oracle : Oracle) : ManagerState × Except CodexErr Unit :=
  if st.initialized then (st, .ok ())
  else
    match oracle "initialize" initializeParams with
    | .error e => (st, .error e)
    | .ok init_result =>
      let methods :=
        match pyGetD (pyOr init_result (.obj [])) "authMethods" (.arr []) with
        | .arr ms => ms.filterMap (fun m =>
            if m.isDict && jsonHasKey m "id" then some (pyGet m "id") else none)
        | _ => []
      let st1 := { st with authMethods := methods }
      if pyTruthyOpt token then
        if !(methods.any (fun m => m.eqStr "openai-api-key")) then
          (st1, .error (.protocolError (.num (-32000))
            (.str "Codex agent does not support OPENAI_API_KEY authentication")
            .null))
        else
          match oracle "authenticate" (.obj [("methodId", .str "openai-api-key")]) with
          | .error e => (st1, .error e)
          | .ok _ => ({ st1 with initialized := true }, .ok ())
      else
        ({ st1 with initialized := true }, .ok ())

/-- CodexManager._ensure_session(client_session_id): return the cached
agent session when the map has the client id; otherwise send session/new
with the workspace path, fail with CodexError(-32603, ...) when the
returned sessionId is falsy, and otherwise cache str(sessionId) and
return it.  The source calls response.get, which raises on a non-dict
response. -/
def ensure_session (st : ManagerState) (client_session_id : String)
    (oracle : Oracle) : ManagerState × Except CodexErr String :=
  match alistLookup st.clientToCodex client_session_id with
  | some s => (st, .ok s)
  | none =>
    match oracle "session/new"
        (.obj [("cwd", .str st.workspace), ("mcpServers", .arr [])]) with
    | .error e => (st, .error e)
    | .ok response =>
      match response with
      | .obj _ =>
        let codex_session_raw := pyGet response "sessionId"
        if !codex_session_raw.truthy then
          (st, .error (.protocolError (.num (-32603))
            (.str "Codex session/new did not return a sessionId") .null))
        else
          let codex_session := pyStr codex_session_raw
          ({ st with clientToCodex :=
              alistSet st.clientToCodex client_session_id codex_session },
           .ok codex_session)
      | _ => (st, .error (.pyError "AttributeError: get on a non-dict response"))

/-- The opening of CodexManager.run_prompt: ensure_started(token), and on
restart clear the handshake flag, the session map and the subscriber
registry. -/
def run_prompt_restart (st : ManagerState) (token : Option String) :
    ManagerState :=
  let started := ensure_started st.process token
  if started.2 then
    { st with
      process := started.1
      initialized := false
      clientToCodex := []
      sessionWatchers := [] }
  else
    { st with process := started.1 }

/-- CodexManager.run_prompt(token, client_session_id, messages).
The notifs argument lists the session/update payloads delivered to the
subscriber queue during the call; the drain race of the source consumes
exactly those, in order, before finalizing, so the fold over notifs is
its outcome.  All awaited transport requests are abstracted by the
oracle. -/
def run_prompt (st : ManagerState) (token : Option String)
    (client_session_id : Option String) (messages : List Json)
    (oracle : Oracle) (notifs : List Json) :
    ManagerState × Except CodexErr RunResult :=
  let client_session := optStrOrEmpty client_session_id
  let st1 := run_prompt_restart st token
  match ensure_initialized st1 token oracle with
  | (st2, .error e) => (st2, .error e)
  | (st2, .ok _) =>
    match ensure_session st2 client_session oracle with
    | (st3, .error e) => (st3, .error e)
    | (st3, .ok codex_session) =>
      -- queue = asyncio.Queue(); watchers = setdefault(codex_session, []);
      -- watchers.append(queue)
      let queue := st3.queueCounter
      let st4 := { st3 with
        queueCounter := queue + 1
        sessionWatchers := alistSet st3.sessionWatchers codex_session
          ((alistLookup st3.sessionWatchers codex_session).getD [] ++ [queue]) }
      match build_prompt_payload messages with
      | .error (.valueError msg) =>
        -- except ValueError: detach the just-created watcher, re-raise
        ({ st4 with sessionWatchers :=
            detach_watcher st4.sessionWatchers codex_session queue },
         .error (.valueError msg))
      | .error e =>
        -- only ValueError is caught: any other failure propagates with
        -- the watcher still registered
        (st4, .error e)
      | .ok prompt_payload =>
        let promptCall := oracle "session/prompt"
          (.obj [("sessionId", .str codex_session),
                 ("prompt", .arr prompt_payload)])
        match promptCall with
        | .error e =>
          -- the finally block detaches the watcher
          ({ st4 with sessionWatchers :=
              detach_watcher st4.sessionWatchers codex_session queue },
           .error e)
        | .ok prompt_response =>
          let stop_reason :=
            pyGetD (pyOr prompt_response (.obj [])) "stopReason" (.str "unknown")
          let accumulator := notifs.foldl PromptAccumulator.ingest
            { assistant_text_parts := [], events := [] }
          let st5 := { st4 with
            sessionWatchers :=
              detach_watcher st4.sessionWatchers codex_session queue }
          (st5, .ok
            { session_id := pyOrStr client_session codex_session
              codex_session_id := codex_session
              stop_reason := stop_reason
              output_messages := accumulator.build_output
              events := accumulator.events })

/-- The setup phase of CodexManager.stream_session(token, client_session_id),
up to and including the registration of the long-lived subscriber queue:
effective_token = token if token is not None else current_token;
ensure_started(effective_token) with its return value discarded (nothing
is cleared on restart, unlike run_prompt); _ensure_initialized;
_ensure_session; queue registration.  Returns the agent session and the
queue id on success. -/
def stream_session_setup (st : ManagerState) (token : Option String)
    (client_session_id : String) (oracle : Oracle) :
    ManagerState × Except CodexErr (String × Nat) :=
  let effective_token :=
    match token with
    | some t => some t
    | none => st.process.currentToken
  let started := ensure_started st.process effective_token
  let st1 := { st with process := started.1 }
  match ensure_initialized st1 effective_token oracle with
  | (st2, .error e) => (st2, .error e)
  | (st2, .ok _) =>
    match ensure_session st2 client_session_id oracle with
    | (st3, .error e) => (st3, .error e)
    | (st3, .ok codex_session) =>
      let queue := st3.queueCounter
      ({ st3 with
         queueCounter := queue + 1
         sessionWatchers := alistSet st3.sessionWatchers codex_session
           ((alistLookup st3.sessionWatchers codex_session).getD [] ++ [queue]) },
       .ok (codex_session, queue))

/-! Specification-side predicates used by the theorems. -/

/-- Does this parsed value address the pending request rid?  (It is a dict
with an "id" key whose str() equals rid.) -/
def targets (m : Json) (rid : String) : Prop :=
  jsonHasKey m "id" = true ∧ pyStr (pyGet m "id") = rid

instance (m : Json) (rid : String) : Decidable (targets m rid) := by
  unfold targets; infer_instance

/-- The "error" field of the value is absent, null, or an object: the
shapes for which the reader resolves the popped future rather than dying
on error_obj.get. -/
def wfError (m : Json) : Bool :=
  match jsonGet m "error" with
  | some (.obj _) => true
  | some .null => true
  | none => true
  | some _ => false

/-- Handling this value can never raise inside the reader loop, whatever
the pending table holds. -/
def nonCrashing : Json → Bool
  | .obj fields => !jsonHasKey (.obj fields) "id" || wfError (.obj fields)
  | .arr elems =>
      !(elems.any (fun x => x.eqStr "id")) && !(elems.any (fun x => x.eqStr "method"))
  | .str s => decide ((s.splitOn "id").length ≤ 1) && decide ((s.splitOn "method").length ≤ 1)
  | _ => false

/-- The resolution the reader gives a pending future for this response
value: a ProtocolError carrying the error object code/message/data when
the value has a non-null "error" object, the "result" field (null when
absent) otherwise. -/
def response_resolution (message : Json) : FutureState :=
  match jsonGet message "error" with
  | some (.obj efields) =>
      .resolvedErr (.protocolError
        (pyGetD (.obj efields) "code" (.num (-32001)))
        (pyGetD (.obj efields) "message" (.str "Unknown error"))
        (pyGet (.obj efields) "data"))
  | _ => .resolvedOk (pyGet message "result")

/-- The text fragment ingest collects from a notification, when any: the
notification is a dict, its update field an (or defaulted) dict of kind
agent_message_chunk, with a dict content of type text holding a non-empty
string. -/
def chunkText (n : Json) : Option String :=
  if !n.isDict then none
  else
    let update := pyOr (pyGet n "update") (.obj [])
    if !update.isDict then none
    else if (pyGet update "sessionUpdate").eqStr "agent_message_chunk" then
      let content := pyOr (pyGet update "content") (.obj [])
      if content.isDict && (pyGet content "type").eqStr "text" then
        match pyGet content "text" with
        | .str t => if t != "" then some t else none
        | _ => none
      else none
    else none

/-- The notification shapes ingest records in the event log: a dict whose
update field is absent, falsy, or itself a dict. -/
def loggedShape (n : Json) : Bool :=
  n.isDict && (pyOr (pyGet n "update") (.obj [])).isDict

/-! Concrete states and payloads used by witnesses. -/

/-- A text chunk notification as the agent emits it, with text s. -/
def exampleChunk (s : String) : Json :=
  .obj [("sessionId", .str "a1"),
        ("update", .obj [("sessionUpdate", .str "agent_message_chunk"),
          ("content", .obj [("type", .str "text"), ("text", .str s)])])]

/-- A non-text notification (a plan update). -/
def examplePlan : Json :=
  .obj [("sessionId", .str "a1"),
        ("update", .obj [("sessionUpdate", .str "plan")])]

/-- A manager state left behind by earlier work under token "A": child
running, handshake done, one cached session mapping. -/
def staleManager : ManagerState :=
  { process := ⟨some ⟨0, none, some "A"⟩, some "A", 0, [], [], [], 1⟩
    workspace := "/workspace"
    initialized := true
    clientToCodex := [("c", "agent-old")]
    sessionWatchers := []
    authMethods := []
    queueCounter := 0 }

/-- The oracle of the end-to-end scenario of the spec: initialize
advertises no auth methods, session/new mints "a1", session/prompt stops
with end_turn. -/
def exampleOracle : Oracle := fun method _ =>
  if method = "initialize" then .ok (.obj [("authMethods", .arr [])])
  else if method = "session/new" then .ok (.obj [("sessionId", .str "a1")])
  else if method = "session/prompt" then .ok (.obj [("stopReason", .str "end_turn")])
  else .ok .null

/-- A freshly constructed manager (no child yet, nothing cached). -/
def freshManager : ManagerState :=
  { process := ⟨none, none, 0, [], [], [], 0⟩
    workspace := "/workspace"
    initialized := false
    clientToCodex := []
    sessionWatchers := []
    authMethods := []
    queueCounter := 0 }

/-- One client message with a single text/plain part saying hi. -/
def exampleMessages : List Json :=
  [Json.obj [("parts", .arr
    [Json.obj [("content_type", .str "text/plain"), ("content", .str "hi")]])]]

/-! Association-list lemmas. -/

section AListLemmas

variable {α : Type}

theorem alistLookup_set_self (l : List (String × α)) (k : String) (v : α) :
    alistLookup (alistSet l k v) k = some v := by
  induction l with
  | nil => simp [alistSet, alistLookup]
  | cons kv rest ih =>
    by_cases h : kv.1 = k
    · simp [alistSet, h, alistLookup]
    · simp [alistSet, h, alistLookup, ih]

theorem alistLookup_set_ne (l : List (String × α)) (k k2 : String) (v : α)
    (h : k2 ≠ k) : alistLookup (alistSet l k v) k2 = alistLookup l k2 := by
  induction l with
  | nil => simp [alistSet, alistLookup, Ne.symm h]
  | cons kv rest ih =>
    by_cases hk : kv.1 = k
    · simp [alistSet, hk, alistLookup, Ne.symm h, hk ▸ (Ne.symm h)]
    · simp only [alistSet, hk, if_false, alistLookup]
      by_cases hk2 : kv.1 = k2
      · simp [hk2]
      · simp [hk2, ih]

theorem alistLookup_erase_self (l : List (String × α)) (k : String) :
    alistLookup (alistErase l k) k = none := by
  induction l with
  | nil => simp [alistErase, alistLookup]
  | cons kv rest ih =>
    by_cases h : kv.1 = k
    · simpa [alistErase, h] using ih
    · simp [alistErase, h, alistLookup, ih]

theorem alistLookup_erase_ne (l : List (String × α)) (k k2 : String)
    (h : k2 ≠ k) : alistLookup (alistErase l k) k2 = alistLookup l k2 := by
  induction l with
  | nil => simp [alistErase, alistLookup]
  | cons kv rest ih =>
    by_cases hk : kv.1 = k
    · have h2 : kv.1 ≠ k2 := by rw [hk]; exact Ne.symm h
      simp [alistErase, hk, alistLookup, h2, ih, Ne.symm h]
    · by_cases hk2 : kv.1 = k2
      · simp [alistErase, hk, alistLookup, hk2, h]
      · simp [alistErase, hk, alistLookup, hk2, ih]

theorem alistLookup_append_of_none (l1 l2 : List (String × α)) (k : String)
    (h : alistLookup l1 k = none) :
    alistLookup (l1 ++ l2) k = alistLookup l2 k := by
  induction l1 with
  | nil => simp
  | cons kv rest ih =>
    by_cases hk : kv.1 = k
    · simp [alistLookup, hk] at h
    · simp only [alistLookup, hk, if_false] at h
      simpa [alistLookup, hk] using ih h

theorem alistLookup_append_of_some (l1 l2 : List (String × α)) (k : String)
    (v : α) (h : alistLookup l1 k = some v) :
    alistLookup (l1 ++ l2) k = some v := by
  induction l1 with
  | nil => simp [alistLookup] at h
  | cons kv rest ih =>
    by_cases hk : kv.1 = k
    · simp only [alistLookup, hk, if_true, if_pos] at h ⊢
      simpa [alistLookup, hk] using h
    · simp only [alistLookup, hk, if_false] at h
      simpa [alistLookup, hk] using ih h

end AListLemmas

/-! Accumulator lemmas. -/

theorem ingest_parts_eq (acc : PromptAccumulator) (n : Json) :
    (acc.ingest n).assistant_text_parts =
    acc.assistant_text_parts ++ (chunkText n).toList := by
  unfold PromptAccumulator.ingest chunkText
  dsimp only
  split_ifs <;>
    first
      | (split <;> (try split_ifs) <;> simp)
      | simp

theorem ingest_events_logged (acc : PromptAccumulator) (n : Json)
    (h : loggedShape n = true) :
    (acc.ingest n).events = acc.events ++ [n] := by
  unfold loggedShape at h
  unfold PromptAccumulator.ingest
  simp only [Bool.and_eq_true] at h
  rw [if_neg (by simp [h.1]), if_neg (by simp [h.2])]

theorem ingest_not_logged (acc : PromptAccumulator) (n : Json)
    (h : loggedShape n = false) : acc.ingest n = acc := by
  unfold loggedShape at h
  unfold PromptAccumulator.ingest
  simp only [Bool.and_eq_false_iff] at h
  rcases h with h | h
  · rw [if_pos (by simp [h])]
  · by_cases hn : (!n.isDict) = true
    · rw [if_pos hn]
    · rw [if_neg hn, if_pos (by simp [h])]

theorem foldl_ingest_parts (ns : List Json) (acc : PromptAccumulator) :
    (ns.foldl PromptAccumulator.ingest acc).assistant_text_parts =
    acc.assistant_text_parts ++ ns.filterMap chunkText := by
  induction ns generalizing acc with
  | nil => simp
  | cons n rest ih =>
    simp only [List.foldl_cons, List.filterMap_cons, ih, ingest_parts_eq]
    cases chunkText n <;> simp

theorem foldl_ingest_events (ns : List Json) (acc : PromptAccumulator)
    (h : ∀ m ∈ ns, loggedShape m = true) :
    (ns.foldl PromptAccumulator.ingest acc).events = acc.events ++ ns := by
  induction ns generalizing acc with
  | nil => simp
  | cons n rest ih =>
    simp only [List.foldl_cons]
    rw [ih _ (fun m hm => h m (List.mem_cons_of_mem _ hm)),
      ingest_events_logged _ _ (h n (List.mem_cons_self _ _)), List.append_assoc]
    rfl

/-- C2: for every sequence of ingested notifications, build_output yields
the empty list when no text fragments were collected and otherwise exactly
one assistant message whose single text/plain part is the concatenation of
the collected fragments in arrival order; in particular ingesting chunks
"Hel", "lo", a non-text notification, then "!" yields one assistant
message with content "Hello!", with all four notifications in the event
log in order. -/
theorem claim_C2_build_output :
    (∀ ns : List Json,
      ((ns.foldl PromptAccumulator.ingest ⟨[], []⟩).build_output) =
        (if (ns.filterMap chunkText).isEmpty then []
         else [Json.obj
           [("role", .str "assistant"),
            ("parts", .arr
              [Json.obj
                [("content_type", .str "text/plain"),
                 ("content_encoding", .str "plain"),
                 ("content", .str (String.join (ns.filterMap chunkText)))]])]])) ∧
    (([exampleChunk "Hel", exampleChunk "lo", examplePlan,
       exampleChunk "!"].foldl PromptAccumulator.ingest ⟨[], []⟩).build_output =
      [Json.obj
        [("role", .str "assistant"),
         ("parts", .arr
           [Json.obj
             [("content_type", .str "text/plain"),
              ("content_encoding", .str "plain"),
              ("content", .str "Hello!")]])]] ∧
     ([exampleChunk "Hel", exampleChunk "lo", examplePlan,
       exampleChunk "!"].foldl PromptAccumulator.ingest ⟨[], []⟩).events =
      [exampleChunk "Hel", exampleChunk "lo", examplePlan, exampleChunk "!"]) := by
  refine ⟨fun ns => ?_, rfl, rfl⟩
  unfold PromptAccumulator.build_output
  rw [foldl_ingest_parts]
  rfl

/-- C3 counterexample: a notification whose update field is a truthy
non-dict value is not appended to the event log; after ingesting it into
a fresh accumulator the event log does not consist of that notification. -/
theorem claim_C3_counterexample :
    (PromptAccumulator.ingest ⟨[], []⟩ (.obj [("update", .str "x")])).events ≠
    [Json.obj [("update", .str "x")]] := by
  have h0 : (PromptAccumulator.ingest ⟨[], []⟩
      (.obj [("update", .str "x")])).events = ([] : List Json) := rfl
  rw [h0]
  simp

/-- C3 amended: ingest appends the raw notification to the event log
whenever the notification is a dict whose update field is absent, falsy
or a dict; when the notification is not a dict, or its update field is a
truthy non-dict, ingest leaves the accumulator (event log included)
unchanged; and after any sequence of N ingest calls on notifications of
the logged shape the event log holds exactly those N notifications in
ingestion order. -/
theorem claim_C3_event_log (acc : PromptAccumulator) (n : Json) (ns : List Json) :
    (loggedShape n = true → (acc.ingest n).events = acc.events ++ [n]) ∧
    (loggedShape n = false → acc.ingest n = acc) ∧
    ((∀ m ∈ ns, loggedShape m = true) →
      (ns.foldl PromptAccumulator.ingest acc).events = acc.events ++ ns) :=
  ⟨ingest_events_logged acc n, ingest_not_logged acc n,
   foldl_ingest_events ns acc⟩

/-- C3 amended witness: the chunk notification is logged, a notification
with a truthy non-dict update is dropped whole, and ingesting the four
example notifications into a fresh accumulator logs exactly those four. -/
theorem claim_C3_event_log_witness :
    (PromptAccumulator.ingest ⟨[], []⟩ (exampleChunk "Hel")).events =
      [] ++ [exampleChunk "Hel"] ∧
    PromptAccumulator.ingest ⟨[], []⟩ (.obj [("update", .num 3)]) = ⟨[], []⟩ ∧
    ([exampleChunk "Hel", exampleChunk "lo", examplePlan,
      exampleChunk "!"].foldl PromptAccumulator.ingest ⟨[], []⟩).events =
      [] ++ [exampleChunk "Hel", exampleChunk "lo", examplePlan, exampleChunk "!"] :=
  ⟨(claim_C3_event_log ⟨[], []⟩ (exampleChunk "Hel") []).1 rfl,
   (claim_C3_event_log ⟨[], []⟩ (.obj [("update", .num 3)]) []).2.1 rfl,
   (claim_C3_event_log ⟨[], []⟩ (.obj []) [exampleChunk "Hel", exampleChunk "lo",
      examplePlan, exampleChunk "!"]).2.2 (by decide)⟩

/-- C5: ensure_started(token) returns False (no restart) exactly when a
child is already running (returncode None) with the same token, and then
the whole transport state is returned unchanged; in every other case it
performs the full stop-then-start sequence (shutdown_locked followed by a
fresh spawn) and returns True. -/
theorem claim_C5_ensure_started (st : CPState) (token : Option String) :
    ((ensure_started st token).2 = false ↔
      ((∃ p, st.proc = some p ∧ p.returncode = none) ∧
        token = st.currentToken)) ∧
    ((ensure_started st token).2 = false → (ensure_started st token).1 = st) ∧
    ((ensure_started st token).2 = true →
      ensure_started st token = (spawn (shutdown_locked st) token, true)) := by
  by_cases hc : ((match st.proc with
      | some p => p.returncode.isNone
      | none => false)
     && token == st.currentToken) = true
  · have he : ensure_started st token = (st, false) := by
      unfold ensure_started; rw [if_pos hc]
    rw [he]
    refine ⟨⟨fun _ => ?_, fun _ => rfl⟩, fun _ => rfl, fun h => by cases h⟩
    simp only [Bool.and_eq_true, beq_iff_eq] at hc
    refine ⟨?_, hc.2⟩
    cases hp : st.proc with
    | none => rw [hp] at hc; cases hc.1
    | some p =>
      rw [hp] at hc
      exact ⟨p, rfl, Option.isNone_iff_eq_none.mp hc.1⟩
  · have he : ensure_started st token = (spawn (shutdown_locked st) token, true) := by
      unfold ensure_started; rw [if_neg hc]
    rw [he]
    refine ⟨⟨fun h => ?_, fun h => ?_⟩, fun h => ?_, fun _ => rfl⟩
    · exact absurd h (by simp)
    · exfalso
      apply hc
      simp only [Bool.and_eq_true, beq_iff_eq]
      rcases h with ⟨⟨p, hp, hr⟩, ht⟩
      rw [hp]
      exact ⟨by simp [hr], ht⟩
    · exact absurd h (by simp)

/-- C5 witness: with a child running under token "t", starting with "t" is
a no-op returning False, and starting with "s" restarts, returning True
with the stop-then-start state. -/
theorem claim_C5_ensure_started_witness :
    (ensure_started ⟨some ⟨0, none, some "t"⟩, some "t", 0, [], [], [], 1⟩
        (some "t")).2 = false ∧
    (ensure_started ⟨some ⟨0, none, some "t"⟩, some "t", 0, [], [], [], 1⟩
        (some "t")).1 = ⟨some ⟨0, none, some "t"⟩, some "t", 0, [], [], [], 1⟩ ∧
    ensure_started ⟨some ⟨0, none, some "t"⟩, some "t", 0, [], [], [], 1⟩
        (some "s") =
      (spawn (shutdown_locked ⟨some ⟨0, none, some "t"⟩, some "t", 0, [], [], [], 1⟩)
        (some "s"), true) := by
  refine ⟨?_, ?_, ?_⟩
  · exact (claim_C5_ensure_started _ (some "t")).1.mpr ⟨⟨_, rfl, rfl⟩, rfl⟩
  · exact (claim_C5_ensure_started
      ⟨some ⟨0, none, some "t"⟩, some "t", 0, [], [], [], 1⟩ (some "t")).2.1
      ((claim_C5_ensure_started _ (some "t")).1.mpr ⟨⟨_, rfl, rfl⟩, rfl⟩)
  · exact (claim_C5_ensure_started
      ⟨some ⟨0, none, some "t"⟩, some "t", 0, [], [], [], 1⟩ (some "s")).2.2 rfl

/-- C6: at end-of-stream of the child stdout, and equally when the
transport is stopped, the pending table is cleared and every request that
was still pending at that moment is resolved with the ProcessUnavailable
error of that path. -/
theorem claim_C6_pending_failed (st : CPState) :
    (read_stdout_eos st).pending = [] ∧
    (shutdown_locked st).pending = [] ∧
    (CPState.stop st).pending = [] ∧
    (∀ e ∈ st.pending, e.2 = .pending →
      (e.1, FutureState.resolvedErr
        (.processClosed "codex-acp stdout closed")) ∈ (read_stdout_eos st).resolved ∧
      (e.1, FutureState.resolvedErr
        (.processClosed "codex-acp process stopped")) ∈ (shutdown_locked st).resolved) := by
  refine ⟨rfl, rfl, rfl, fun e he h2 => ⟨?_, ?_⟩⟩
  · unfold read_stdout_eos fail_all_pending
    simp only [List.mem_append]
    right
    exact List.mem_map.mpr ⟨e, he, by rw [h2]; rfl⟩
  · unfold shutdown_locked fail_all_pending
    simp only [List.mem_append]
    right
    exact List.mem_map.mpr ⟨e, by simpa using he, by rw [h2]; rfl⟩

/-- C6 witness: with two pending requests, end-of-stream and stop both
clear the table and resolve each of them with the matching
CodexProcessClosed error. -/
theorem claim_C6_pending_failed_witness :
    (read_stdout_eos ⟨none, none, 2, [("1", .pending), ("2", .pending)], [], [], 0⟩).pending = [] ∧
    ("1", FutureState.resolvedErr (.processClosed "codex-acp stdout closed")) ∈
      (read_stdout_eos ⟨none, none, 2, [("1", .pending), ("2", .pending)], [], [], 0⟩).resolved ∧
    ("2", FutureState.resolvedErr (.processClosed "codex-acp process stopped")) ∈
      (shutdown_locked ⟨none, none, 2, [("1", .pending), ("2", .pending)], [], [], 0⟩).resolved := by
  refine ⟨(claim_C6_pending_failed _).1, ?_, ?_⟩
  · exact ((claim_C6_pending_failed _).2.2.2 ("1", .pending) (by simp) rfl).1
  · exact ((claim_C6_pending_failed _).2.2.2 ("2", .pending) (by simp) rfl).2

/-- C8: request(method, params) raises CodexProcessClosed at once when no
child process handle exists, leaving the state (pending table included)
untouched; and when the write to the child stdin raises BrokenPipeError,
the just-registered pending future is resolved with CodexProcessClosed
carrying the same message that is raised to the caller. -/
theorem claim_C8_request (st : CPState) (w : WriteOutcome) (method : String)
    (params : Json) :
    (st.proc = none →
      request st w method params =
        (st, .raisedClosed "codex-acp process is not running")) ∧
    (∀ p msg, st.proc = some p → w = .brokenPipe msg →
      (request st w method params).2 = .raisedClosed msg ∧
      alistLookup (request st w method params).1.pending
          (toString (st.idCounter + 1)) =
        some (.resolvedErr (.processClosed msg))) := by
  constructor
  · intro h
    unfold request
    rw [h]
  · intro p msg hp hw
    unfold request
    rw [hp, hw]
    exact ⟨rfl, alistLookup_set_self _ _ _⟩

/-- C8 witness: with no process, request raises at once with the state
unchanged; with a running process and a broken pipe, the caller gets the
broken-pipe message and the registered future holds the same error. -/
theorem claim_C8_request_witness :
    request ⟨none, none, 0, [], [], [], 0⟩ .ok "m" .null =
      (⟨none, none, 0, [], [], [], 0⟩,
        .raisedClosed "codex-acp process is not running") ∧
    (request ⟨some ⟨0, none, none⟩, none, 0, [], [], [], 1⟩
        (.brokenPipe "pipe gone") "m" .null).2 = .raisedClosed "pipe gone" ∧
    alistLookup (request ⟨some ⟨0, none, none⟩, none, 0, [], [], [], 1⟩
        (.brokenPipe "pipe gone") "m" .null).1.pending "1" =
      some (.resolvedErr (.processClosed "pipe gone")) := by
  refine ⟨(claim_C8_request _ .ok "m" .null).1 rfl, ?_, ?_⟩
  · exact ((claim_C8_request _ (.brokenPipe "pipe gone") "m" .null).2
      ⟨0, none, none⟩ "pipe gone" rfl rfl).1
  · exact ((claim_C8_request ⟨some ⟨0, none, none⟩, none, 0, [], [], [], 1⟩
      (.brokenPipe "pipe gone") "m" .null).2 ⟨0, none, none⟩ "pipe gone" rfl rfl).2

/-- C9: a stdout line that fails to parse as JSON is logged and skipped:
the reader state, its pending table in particular, is unchanged and no
request is resolved or failed. -/
theorem claim_C9_bad_line (parse : String → Option Json) (st : CPState)
    (line : String) (h : parse line.trim = none) :
    process_line parse st line = (st, .skipped) := by
  unfold process_line
  by_cases he : line.trim == ""
  · rw [if_pos he]
  · rw [if_neg he, h]

/-- C9 witness: a non-JSON line under a parser that rejects it leaves a
state with a pending request untouched. -/
theorem claim_C9_bad_line_witness :
    process_line (fun _ => none) ⟨none, none, 1, [("1", .pending)], [], [], 0⟩
      "not json" =
    (⟨none, none, 1, [("1", .pending)], [], [], 0⟩, .skipped) :=
  claim_C9_bad_line (fun _ => none) _ "not json" rfl

/-- C4: evaluation at the failing input.  Starting stream_session with a
different token "B" restarts the process (ensure_started returns True),
yet stream_session discards that signal: the handshake-done flag stays
set, the stale client-to-agent mapping survives and is even used to
answer with the dead process agent session id "agent-old".  run_prompt,
by contrast, clears all three pieces of state on the same restart, as the
claim demands of both operations. -/
theorem claim_C4_stream_session_keeps_stale_state :
    (ensure_started staleManager.process (some "B")).2 = true ∧
    (stream_session_setup staleManager (some "B") "c"
      (fun _ _ => .ok .null)).1.initialized = true ∧
    alistLookup (stream_session_setup staleManager (some "B") "c"
      (fun _ _ => .ok .null)).1.clientToCodex "c" = some "agent-old" ∧
    (stream_session_setup staleManager (some "B") "c"
      (fun _ _ => .ok .null)).2 = .ok ("agent-old", 0) ∧
    (run_prompt_restart staleManager (some "B")).initialized = false ∧
    (run_prompt_restart staleManager (some "B")).clientToCodex = [] ∧
    (run_prompt_restart staleManager (some "B")).sessionWatchers = [] :=
  ⟨rfl, rfl, rfl, rfl, rfl, rfl, rfl⟩

/-- The ok branch of run_prompt always builds its RunResult with
session_id = client_session or codex_session. -/
theorem run_prompt_ok_session_id (st : ManagerState) (token : Option String)
    (csid : Option String) (messages : List Json) (oracle : Oracle)
    (notifs : List Json) (st2 : ManagerState) (r : RunResult)
    (h : run_prompt st token csid messages oracle notifs = (st2, .ok r)) :
    r.session_id = pyOrStr (optStrOrEmpty csid) r.codex_session_id := by
  simp only [run_prompt] at h
  split at h
  · simp at h
  · split at h
    · simp at h
    · split at h
      · simp at h
      · simp at h
      · split at h
        · simp at h
        · simp only [Prod.mk.injEq, Except.ok.injEq] at h
          rw [← h.2]

/-- C10: every successful run_prompt returns a RunResult whose session_id
is the caller-supplied client session id when it is a non-empty string,
and is the resolved agent session id when the client id is absent or
empty. -/
theorem claim_C10_result_session_id (st : ManagerState) (token : Option String)
    (csid : Option String) (messages : List Json) (oracle : Oracle)
    (notifs : List Json) (st2 : ManagerState) (r : RunResult)
    (h : run_prompt st token csid messages oracle notifs = (st2, .ok r)) :
    (∀ s, csid = some s → s ≠ "" → r.session_id = s) ∧
    ((csid = none ∨ csid = some "") → r.session_id = r.codex_session_id) := by
  have hs := run_prompt_ok_session_id st token csid messages oracle notifs st2 r h
  constructor
  · intro s hcs hne
    rw [hs, hcs]
    unfold optStrOrEmpty pyOrStr
    rw [if_neg (by simpa using hne)]
  · intro hcs
    rcases hcs with hcs | hcs <;> rw [hs, hcs] <;> rfl

/-- C10 witness: the end-to-end run with client session id "s1" yields a
result carrying session_id "s1"; the same run with no client session id
yields a result whose session_id equals its codex_session_id "a1". -/
theorem claim_C10_result_session_id_witness :
    ({ session_id := "s1", codex_session_id := "a1"
       stop_reason := Json.str "end_turn"
       output_messages :=
         [Json.obj [("role", .str "assistant"),
           ("parts", .arr [Json.obj [("content_type", .str "text/plain"),
             ("content_encoding", .str "plain"), ("content", .str "hello")]])]]
       events := [exampleChunk "hello"] } : RunResult).session_id = "s1" ∧
    ({ session_id := "a1", codex_session_id := "a1"
       stop_reason := Json.str "end_turn"
       output_messages := []
       events := [] } : RunResult).session_id =
      ({ session_id := "a1", codex_session_id := "a1"
         stop_reason := Json.str "end_turn"
         output_messages := []
         events := [] } : RunResult).codex_session_id :=
  ⟨(claim_C10_result_session_id freshManager none (some "s1") exampleMessages
      exampleOracle [exampleChunk "hello"]
      (run_prompt freshManager none (some "s1") exampleMessages
        exampleOracle [exampleChunk "hello"]).1 _ rfl).1 "s1" rfl (by decide),
   (claim_C10_result_session_id freshManager none none exampleMessages
      exampleOracle []
      (run_prompt freshManager none none exampleMessages exampleOracle []).1
      _ rfl).2 (Or.inl rfl)⟩

/-- Registering a fresh queue for a session and then detaching it through
_detach_watcher restores the watcher list for that session: absent when
nobody else was subscribed, the previous subscriber list otherwise. -/
theorem lookup_detach_after_register (m : List (String × List Nat))
    (cs : String) (ws0 : List Nat) (q : Nat) (hq : q ∉ ws0) :
    alistLookup (detach_watcher (alistSet m cs (ws0 ++ [q])) cs q) cs =
    if ws0.isEmpty then none else some ws0 := by
  unfold detach_watcher
  rw [alistLookup_set_self]
  dsimp only
  rw [if_neg (by simp)]
  have herase : (ws0 ++ [q]).erase q = ws0 := by
    rw [List.erase_append_right _ (by simpa using hq)]
    simp
  rw [herase]
  by_cases h0 : ws0.isEmpty
  · rw [if_pos h0, if_pos h0]
    exact alistLookup_erase_self _ _
  · rw [if_neg h0, if_neg h0]
    exact alistLookup_set_self _ _ _

/-- C7: when the messages yield no usable plain-text part, run_prompt
fails with the ValidationError raised by the payload builder, and the
subscriber queue registered by this call is deregistered before the error
returns: afterward the registry holds the pre-existing subscriber list
for that agent session, which means no entry at all when this call was
the only subscriber. -/
theorem claim_C7_validation_cleanup (st : ManagerState) (token : Option String)
    (csid : Option String) (messages : List Json) (oracle : Oracle)
    (notifs : List Json) (st2 st3 : ManagerState) (cs : String) (msg : String)
    (h1 : ensure_initialized (run_prompt_restart st token) token oracle =
      (st2, .ok ()))
    (h2 : ensure_session st2 (optStrOrEmpty csid) oracle = (st3, .ok cs))
    (h3 : build_prompt_payload messages = .error (.valueError msg))
    (hq : st3.queueCounter ∉ (alistLookup st3.sessionWatchers cs).getD []) :
    (run_prompt st token csid messages oracle notifs).2 =
      .error (.valueError msg) ∧
    alistLookup (run_prompt st token csid messages oracle notifs).1.sessionWatchers
        cs =
      (if ((alistLookup st3.sessionWatchers cs).getD []).isEmpty then none
       else some ((alistLookup st3.sessionWatchers cs).getD [])) := by
  have he : run_prompt st token csid messages oracle notifs =
      ({ st3 with
         queueCounter := st3.queueCounter + 1
         sessionWatchers := detach_watcher
           (alistSet st3.sessionWatchers cs
             ((alistLookup st3.sessionWatchers cs).getD [] ++ [st3.queueCounter]))
           cs st3.queueCounter },
       .error (.valueError msg)) := by
    simp only [run_prompt]
    rw [h1]
    dsimp only
    rw [h2]
    dsimp only
    rw [h3]
  rw [he]
  exact ⟨rfl, lookup_detach_after_register _ _ _ _ hq⟩

/-- C7 witness: with the handshake done, a cached session "cs1" with no
subscribers, and an empty message list, run_prompt fails with the
ValidationError and afterwards the registry has no entry for "cs1". -/
theorem claim_C7_validation_cleanup_witness :
    (run_prompt
      { process := ⟨some ⟨0, none, some "t"⟩, some "t", 0, [], [], [], 1⟩
        workspace := "/workspace", initialized := true
        clientToCodex := [("c", "cs1")], sessionWatchers := []
        authMethods := [], queueCounter := 0 }
      (some "t") (some "c") [] (fun _ _ => .ok .null) []).2 =
      .error (.valueError "Prompt payload did not contain any plain text content") ∧
    alistLookup (run_prompt
      { process := ⟨some ⟨0, none, some "t"⟩, some "t", 0, [], [], [], 1⟩
        workspace := "/workspace", initialized := true
        clientToCodex := [("c", "cs1")], sessionWatchers := []
        authMethods := [], queueCounter := 0 }
      (some "t") (some "c") [] (fun _ _ => .ok .null) []).1.sessionWatchers
      "cs1" = none := by
  have h := claim_C7_validation_cleanup
    { process := ⟨some ⟨0, none, some "t"⟩, some "t", 0, [], [], [], 1⟩
      workspace := "/workspace", initialized := true
      clientToCodex := [("c", "cs1")], sessionWatchers := []
      authMethods := [], queueCounter := 0 }
    (some "t") (some "c") [] (fun _ _ => .ok .null) []
    _ _ "cs1" "Prompt payload did not contain any plain text content"
    rfl rfl rfl (by decide)
  exact ⟨h.1, h.2⟩

/-! Reader-loop lemmas for response correlation. -/

theorem alistLookup_append_singleton_ne {α : Type} (l : List (String × α))
    (k k2 : String) (v : α) (h : k2 ≠ k) :
    alistLookup (l ++ [(k2, v)]) k = alistLookup l k := by
  cases hl : alistLookup l k with
  | some w => exact alistLookup_append_of_some _ _ _ _ hl
  | none =>
    rw [alistLookup_append_of_none _ _ _ hl]
    simp [alistLookup, h]

/-- A reader iteration on a value that does not address rid leaves the
entries for rid in the pending table and in the record of resolutions
untouched. -/
theorem handle_message_preserves (st : CPState) (m : Json) (rid : String)
    (h : ¬ targets m rid) :
    alistLookup (handle_message st m).1.pending rid =
      alistLookup st.pending rid ∧
    alistLookup (handle_message st m).1.resolved rid =
      alistLookup st.resolved rid := by
  cases m with
  | obj fields =>
    unfold handle_message
    dsimp only
    by_cases hid : jsonHasKey (Json.obj fields) "id" = true
    · rw [if_pos hid]
      have hne : pyStr (pyGet (Json.obj fields) "id") ≠ rid :=
        fun he => h ⟨hid, he⟩
      cases hp : alistLookup st.pending (pyStr (pyGet (Json.obj fields) "id")) with
      | none => exact ⟨rfl, rfl⟩
      | some fut =>
        cases herr : jsonGet (Json.obj fields) "error" with
        | none =>
          exact ⟨alistLookup_erase_ne _ _ _ (Ne.symm hne),
            alistLookup_append_singleton_ne _ _ _ _ hne⟩
        | some e =>
          cases e <;>
            first
              | exact ⟨alistLookup_erase_ne _ _ _ (Ne.symm hne),
                  alistLookup_append_singleton_ne _ _ _ _ hne⟩
              | exact ⟨alistLookup_erase_ne _ _ _ (Ne.symm hne), rfl⟩
    · rw [if_neg hid]
      by_cases hm : jsonHasKey (Json.obj fields) "method" = true
      · rw [if_pos hm]
        exact ⟨rfl, rfl⟩
      · rw [if_neg hm]
        exact ⟨rfl, rfl⟩
  | arr elems =>
    unfold handle_message
    dsimp only
    split_ifs <;> exact ⟨rfl, rfl⟩
  | str s =>
    unfold handle_message
    dsimp only
    split_ifs <;> exact ⟨rfl, rfl⟩
  | null => exact ⟨rfl, rfl⟩
  | bool b => exact ⟨rfl, rfl⟩
  | num n => exact ⟨rfl, rfl⟩

/-- A reader iteration on a value of non-crashing shape never kills the
reader task. -/
theorem handle_message_noncrash (st : CPState) (m : Json)
    (h : nonCrashing m = true) :
    (handle_message st m).2.isCrashed = false := by
  cases m with
  | obj fields =>
    unfold handle_message
    dsimp only
    by_cases hid : jsonHasKey (Json.obj fields) "id" = true
    · rw [if_pos hid]
      unfold nonCrashing at h
      rw [Bool.or_eq_true] at h
      have hw : wfError (Json.obj fields) = true := by
        rcases h with h | h
        · rw [Bool.not_eq_true'] at h
          rw [h] at hid
          exact (Bool.false_ne_true hid).elim
        · exact h
      cases hp : alistLookup st.pending (pyStr (pyGet (Json.obj fields) "id")) with
      | none => rfl
      | some fut =>
        unfold wfError at hw
        cases herr : jsonGet (Json.obj fields) "error" with
        | none => rfl
        | some e =>
          rw [herr] at hw
          cases e <;> first | rfl | (cases hw)
    · rw [if_neg hid]
      by_cases hm : jsonHasKey (Json.obj fields) "method" = true
      · rw [if_pos hm]; rfl
      · rw [if_neg hm]; rfl
  | arr elems =>
    unfold nonCrashing at h
    rw [Bool.and_eq_true, Bool.not_eq_true', Bool.not_eq_true'] at h
    unfold handle_message
    dsimp only
    rw [if_neg (by rw [h.1]; exact Bool.false_ne_true),
      if_neg (by rw [h.2]; exact Bool.false_ne_true)]
    rfl
  | str s =>
    unfold nonCrashing at h
    rw [Bool.and_eq_true, decide_eq_true_eq, decide_eq_true_eq] at h
    unfold handle_message
    dsimp only
    rw [if_neg (by omega), if_neg (by omega)]
    rfl
  | null => cases h
  | bool b => cases h
  | num n => cases h

/-- A reader iteration on a well-formed response addressing a pending
request rid pops that request and records its resolution. -/
theorem handle_message_resolves (st : CPState) (m : Json) (rid : String)
    (ht : targets m rid) (hw : wfError m = true)
    (hp : alistLookup st.pending rid = some .pending) :
    handle_message st m =
      ({ st with
         pending := alistErase st.pending rid
         resolved := st.resolved ++ [(rid, response_resolution m)] },
       .resolvedResponse rid) := by
  obtain ⟨hid, hrid⟩ := ht
  cases m with
  | obj fields =>
    unfold handle_message
    dsimp only
    rw [if_pos hid, hrid, hp]
    unfold wfError at hw
    unfold response_resolution
    cases herr : jsonGet (Json.obj fields) "error" with
    | none => rfl
    | some e =>
      cases e <;> first | rfl | ((try rw [herr] at hw); simp at hw)
  | arr elems => cases hid
  | str s => cases hid
  | null => cases hid
  | bool b => cases hid
  | num n => cases hid

/-- The reader loop over values that never address rid leaves the entries
for rid untouched. -/
theorem process_messages_preserves (ms : List Json) (st : CPState)
    (rid : String) (h : ∀ m ∈ ms, ¬ targets m rid) :
    alistLookup (process_messages st ms).pending rid =
      alistLookup st.pending rid ∧
    alistLookup (process_messages st ms).resolved rid =
      alistLookup st.resolved rid := by
  induction ms generalizing st with
  | nil => exact ⟨rfl, rfl⟩
  | cons m rest ih =>
    unfold process_messages
    have hstep := handle_message_preserves st m rid
      (h m (List.mem_cons_self _ _))
    by_cases hc : (handle_message st m).2.isCrashed = true
    · rw [if_pos hc]
      exact hstep
    · rw [if_neg hc]
      have ihr := ih (handle_message st m).1
        (fun m2 hm2 => h m2 (List.mem_cons_of_mem _ hm2))
      exact ⟨ihr.1.trans hstep.1, ihr.2.trans hstep.2⟩

/-- One well-formed response for rid inside an arbitrary stream of other
values: after the reader loop runs, rid is no longer pending and its
recorded resolution is the one derived from exactly that response. -/
theorem process_messages_resolves (post : List Json) (m : Json) (rid : String)
    (ht : targets m rid) (hw : wfError m = true)
    (hpost : ∀ m2 ∈ post, ¬ targets m2 rid) :
    ∀ (pre : List Json),
    (∀ m2 ∈ pre, ¬ targets m2 rid ∧ nonCrashing m2 = true) →
    ∀ (st : CPState),
    alistLookup st.pending rid = some .pending →
    alistLookup st.resolved rid = none →
    alistLookup (process_messages st (pre ++ m :: post)).pending rid = none ∧
    alistLookup (process_messages st (pre ++ m :: post)).resolved rid =
      some (response_resolution m) := by
  intro pre
  induction pre with
  | nil =>
    intro _ st hp hr
    rw [List.nil_append]
    unfold process_messages
    rw [handle_message_resolves st m rid ht hw hp]
    dsimp only [ReadAction.isCrashed]
    rw [if_neg (by simp)]
    have hpres := process_messages_preserves post
      ({ st with
         pending := alistErase st.pending rid
         resolved := st.resolved ++ [(rid, response_resolution m)] })
      rid hpost
    refine ⟨hpres.1.trans ?_, hpres.2.trans ?_⟩
    · exact alistLookup_erase_self _ _
    · rw [alistLookup_append_of_none _ _ _ hr]
      simp [alistLookup]
  | cons m0 pre2 ih =>
    intro hpre st hp hr
    rw [List.cons_append]
    unfold process_messages
    have h0 := hpre m0 (List.mem_cons_self _ _)
    rw [if_neg (by rw [handle_message_noncrash st m0 h0.2]; exact Bool.false_ne_true)]
    have hstep := handle_message_preserves st m0 rid h0.1
    exact ih (fun m2 hm2 => hpre m2 (List.mem_cons_of_mem _ hm2))
      (handle_message st m0).1 (hstep.1.trans hp) (hstep.2.trans hr)

/-- A response whose identifier matches no pending request is logged and
ignored: the state, pending table included, is unchanged. -/
theorem handle_message_unknown (st : CPState) (m : Json)
    (hid : jsonHasKey m "id" = true)
    (hp : alistLookup st.pending (pyStr (pyGet m "id")) = none) :
    handle_message st m = (st, .unknownResponse (pyStr (pyGet m "id"))) := by
  cases m with
  | obj fields =>
    unfold handle_message
    dsimp only
    rw [if_pos hid, hp]
  | arr elems => cases hid
  | str s => cases hid
  | null => cases hid
  | bool b => cases hid
  | num n => cases hid

/-- C1: for every response line carrying an id: when a pending request
with that identifier exists, processing the stream removes it from the
pending table and records exactly the resolution derived from its own
response, a ProtocolError built from the error object code/message/data
when the response has a non-null error, the result field (null when
absent) otherwise, independently of the other values arriving before or
after it on the stream; and when no pending request with that identifier
exists, the value is logged and ignored with the whole transport state
unchanged. -/
theorem claim_C1_response_correlation :
    (∀ (st : CPState) (rid : String) (m : Json) (pre post : List Json),
      targets m rid → wfError m = true →
      (∀ m2 ∈ pre, ¬ targets m2 rid ∧ nonCrashing m2 = true) →
      (∀ m2 ∈ post, ¬ targets m2 rid) →
      alistLookup st.pending rid = some .pending →
      alistLookup st.resolved rid = none →
      alistLookup (process_messages st (pre ++ m :: post)).pending rid = none ∧
      alistLookup (process_messages st (pre ++ m :: post)).resolved rid =
        some (response_resolution m)) ∧
    (∀ (st : CPState) (m : Json),
      jsonHasKey m "id" = true →
      alistLookup st.pending (pyStr (pyGet m "id")) = none →
      handle_message st m = (st, .unknownResponse (pyStr (pyGet m "id")))) :=
  ⟨fun st rid m pre post ht hw hpre hpost hp hr =>
    process_messages_resolves post m rid ht hw hpost pre hpre st hp hr,
   handle_message_unknown⟩

/-- C1 witness: with requests "1" and "2" pending, a stream delivering
the response for "2", then the response for "1", then a notification,
resolves "1" with its own result; a success response and an error
response for an unknown id are ignored with the state unchanged. -/
theorem claim_C1_response_correlation_witness :
    alistLookup (process_messages
      ⟨none, none, 2, [("1", .pending), ("2", .pending)], [], [], 0⟩
      ([Json.obj [("id", .str "2"), ("result", .str "r2")]] ++
       Json.obj [("id", .str "1"), ("result", .str "ok")] ::
       [Json.obj [("method", .str "session/update")]])).pending "1" = none ∧
    alistLookup (process_messages
      ⟨none, none, 2, [("1", .pending), ("2", .pending)], [], [], 0⟩
      ([Json.obj [("id", .str "2"), ("result", .str "r2")]] ++
       Json.obj [("id", .str "1"), ("result", .str "ok")] ::
       [Json.obj [("method", .str "session/update")]])).resolved "1" =
      some (response_resolution (Json.obj [("id", .str "1"), ("result", .str "ok")])) ∧
    handle_message ⟨none, none, 2, [("1", .pending)], [], [], 0⟩
        (Json.obj [("id", .str "9"), ("result", .str "late")]) =
      (⟨none, none, 2, [("1", .pending)], [], [], 0⟩, .unknownResponse "9") := by
  have h1 := (claim_C1_response_correlation.1
    ⟨none, none, 2, [("1", .pending), ("2", .pending)], [], [], 0⟩ "1"
    (Json.obj [("id", .str "1"), ("result", .str "ok")])
    [Json.obj [("id", .str "2"), ("result", .str "r2")]]
    [Json.obj [("method", .str "session/update")]]
    (by decide) (by decide) (by decide) (by decide) rfl rfl)
  exact ⟨h1.1, h1.2,
    claim_C1_response_correlation.2 ⟨none, none, 2, [("1", .pending)], [], [], 0⟩
      (Json.obj [("id", .str "9"), ("result", .str "late")]) (by decide) rfl⟩

end CodexBridge
